import Mathlib

/-!
Verification of the content-risk scoring engine of the secure-proxy repository.

The definitions below are a shallow embedding of
`src/cpp/securityAnalyzer/SecurityAnalyzer.cpp` and
`src/cpp/mlInterface/MLInference.cpp`:

* C++ `double` is modelled as `ℚ`.  Every arithmetic value that actually
  arises in the embedded code lies in `{0, 2/5, 1/2, 4/5, 1}` together with
  the configured threshold; on these values IEEE-754 double arithmetic and
  exact rational arithmetic agree for every operation the code performs
  (constant loads, subtraction of 0.5, multiplication by 0.8, comparisons),
  so the model is faithful.
* `std::string` is modelled as `String`; texts are treated as ASCII, where
  `std::string::size()` (bytes) coincides with `String.length` (characters)
  and `::tolower` coincides with `Char.toLower`.
* A C++ default-initialized `AnalysisResult` has indeterminate `bool` /
  `double` members (`AnalysisResult result;` performs default
  initialization, which leaves scalars uninitialized) while its
  `std::vector` / `std::string` members are empty.  The indeterminate
  scalars are modelled as explicit parameters `b₀ : Bool`, `c₀ : ℚ` that
  are threaded through the entry points.
* The poppler PDF loader is an external collaborator; its outcome is
  modelled as `Except String (Option PdfDoc)`: `Except.error e` is a thrown
  exception with message `e`, `Except.ok none` is a null document, and
  `Except.ok (some d)` is a loaded document `d` carrying the text that
  `extractTextFromPDF` would concatenate from its pages together with the
  `has_embedded_files` flag.
* The boost regexes used for PII detection are embedded as executable
  match-existence checkers over `List Char`; `boost::regex_search` returns
  whether any match exists anywhere in the text, and existence of a match
  is independent of the engine's leftmost/greedy disambiguation, so the
  checkers below enumerate candidate positions and choices directly.
-/

/-- `AnalysisResult` from SecurityAnalyzer.h: verdict, confidence, issues, summary. -/
structure AnalysisResult where
  is_safe : Bool
  confidence_score : ℚ
  detected_issues : List String
  analysis_summary : String
deriving DecidableEq, Repr

/-- Default-constructed `AnalysisResult`: the scalar members are
indeterminate in C++ (default initialization), hence parameters; the
vector and string members are empty. -/
def AnalysisResult.mkDefault (b₀ : Bool) (c₀ : ℚ) : AnalysisResult :=
  ⟨b₀, c₀, [], ""⟩

/-- `MAX_FILE_SIZE = 10 * 1024 * 1024` from SecurityAnalyzer.cpp. -/
def MAX_FILE_SIZE : Nat := 10 * 1024 * 1024

/-- `DEFAULT_THRESHOLD = 0.8` from SecurityAnalyzer.cpp. -/
def DEFAULT_THRESHOLD : ℚ := 8/10

/-! ### Character classes (ASCII, matching `<cctype>` in the C locale and the
character classes of the boost regexes) -/

/-- Character class `[a-zA-Z0-9._%+-]` (local part of `email_pattern`). -/
def isLocalChar (c : Char) : Bool :=
  c.isAlphanum || c == '.' || c == '_' || c == '%' || c == '+' || c == '-'

/-- Character class `[a-zA-Z0-9.-]` (domain part of `email_pattern`). -/
def isDomainChar (c : Char) : Bool :=
  c.isAlphanum || c == '.' || c == '-'

/-- Regex class `\s` (C whitespace). -/
def isSpaceChar (c : Char) : Bool :=
  c == ' ' || c == '\t' || c == '\n' || c == '\x0b' || c == '\x0c' || c == '\r'

/-- Regex class `[\s\-\.]` used as separator in `phone_pattern`. -/
def isSepChar (c : Char) : Bool :=
  isSpaceChar c || c == '-' || c == '.'

/-- Regex word character `\w` = `[A-Za-z0-9_]`, used by `\b`. -/
def isWordChar (c : Char) : Bool :=
  c.isAlphanum || c == '_'

/-- Regex class `[2-9]` from `phone_pattern`. -/
def isD29 (c : Char) : Bool :=
  '2' ≤ c && c ≤ '9'

/-! ### PII regex matchers

`email_pattern = [a-zA-Z0-9._%+-]+@[a-zA-Z0-9.-]+\.[a-zA-Z]{2,}`,
`ssn_pattern = \b\d{3}-\d{2}-\d{4}\b`, and the two-alternative
`phone_pattern`, each embedded as an executable "some match exists"
decision procedure. -/

/-- After `@` and one mandatory domain character: scans for the remaining
`[a-zA-Z0-9.-]*\.[a-zA-Z]{2,}` part of `email_pattern`, trying at every
position either to read the final `.` plus two letters or to extend the
domain run. -/
def emailDomTail : List Char → Bool
  | [] => false
  | c :: rest =>
      (c == '.' && (match rest with
        | a :: b :: _ => a.isAlpha && b.isAlpha
        | _ => false))
      || (isDomainChar c && emailDomTail rest)

/-- Does a match of `email_pattern` start at this suffix?  A match needs at
least one local character directly before `@`; if the regex matches with a
longer local run, a match also starts at the run's last character, so
checking a single local character before `@` decides existence. -/
def emailStartsAt : List Char → Bool
  | c :: '@' :: d :: rest => isLocalChar c && isDomainChar d && emailDomTail rest
  | _ => false

/-- `boost::regex_search(text, email_pattern)`. -/
def emailMatch (s : List Char) : Bool :=
  s.tails.any emailStartsAt

/-- Test the character at index `i` (out of range: `false`). -/
def charAt (s : List Char) (i : Nat) (p : Char → Bool) : Bool :=
  match s[i]? with
  | some c => p c
  | none => false

/-- Is the character at index `i` a word character (out of range: no)? -/
def wordAt (s : List Char) (i : Nat) : Bool :=
  charAt s i isWordChar

/-- Regex `\b` at position `i` (between indices `i-1` and `i`; the ends of
the string count as non-word). -/
def boundaryAt (s : List Char) (i : Nat) : Bool :=
  (decide (i ≠ 0) && wordAt s (i - 1)) != wordAt s i

/-- Does `\b\d{3}-\d{2}-\d{4}\b` (i.e. `ssn_pattern`) match starting at
index `i`? -/
def ssnAt (s : List Char) (i : Nat) : Bool :=
  boundaryAt s i &&
  charAt s i Char.isDigit && charAt s (i+1) Char.isDigit && charAt s (i+2) Char.isDigit &&
  charAt s (i+3) (· == '-') &&
  charAt s (i+4) Char.isDigit && charAt s (i+5) Char.isDigit &&
  charAt s (i+6) (· == '-') &&
  charAt s (i+7) Char.isDigit && charAt s (i+8) Char.isDigit &&
  charAt s (i+9) Char.isDigit && charAt s (i+10) Char.isDigit &&
  boundaryAt s (i + 11)

/-- `boost::regex_search(text, ssn_pattern)`. -/
def ssnMatch (s : List Char) : Bool :=
  (List.range s.length).any (ssnAt s)

/-- Consume one character satisfying `p` at position `i`; the result is the
list of possible positions afterwards (nondeterministic matching). -/
def eatP (s : List Char) (p : Char → Bool) (i : Nat) : List Nat :=
  match s[i]? with
  | some c => if p c then [i+1] else []
  | none => []

/-- Sequencing of nondeterministic consumers. -/
def thenP (xs : List Nat) (f : Nat → List Nat) : List Nat :=
  xs.flatMap f

/-- End positions of matches of the first `phone_pattern` alternative
`(?:\+1[\s\-\.]?)?(?:\([2-9]\d{2}\)[\s\-\.]?|[2-9]\d{2}[\s\-\.])[2-9]\d{2}[\s\-\.]\d{4}`
starting at position `i`. -/
def phoneAltA (s : List Char) (i : Nat) : List Nat :=
  let d := eatP s Char.isDigit
  let sepOpt : Nat → List Nat := fun j => j :: eatP s isSepChar j
  let pre : List Nat :=
    i :: thenP (thenP (eatP s (· == '+') i) (eatP s (· == '1'))) sepOpt
  let paren : Nat → List Nat := fun j =>
    thenP (thenP (thenP (thenP (thenP (eatP s (· == '(') j) (eatP s isD29)) d) d)
      (eatP s (· == ')'))) sepOpt
  let plain : Nat → List Nat := fun j =>
    thenP (thenP (thenP (eatP s isD29 j) d) d) (eatP s isSepChar)
  let afterArea : List Nat := thenP pre (fun j => paren j ++ plain j)
  let mid := thenP (thenP (thenP afterArea (eatP s isD29)) d) d
  let sep2 := thenP mid (eatP s isSepChar)
  thenP (thenP (thenP (thenP sep2 d) d) d) d

/-- End positions of matches of the second `phone_pattern` alternative
`(?:\+\d{1,3}[\s\-\.])?(?:\d{3}[\s\-\.]\d{3}[\s\-\.]\d{4})` starting at `i`. -/
def phoneAltB (s : List Char) (i : Nat) : List Nat :=
  let d := eatP s Char.isDigit
  let d13 : Nat → List Nat := fun j => d j ++ thenP (d j) d ++ thenP (thenP (d j) d) d
  let pre : List Nat :=
    i :: thenP (thenP (eatP s (· == '+') i) d13) (eatP s isSepChar)
  let g3 : Nat → List Nat := fun j => thenP (thenP (d j) d) d
  let c1 := thenP (thenP pre g3) (eatP s isSepChar)
  let c2 := thenP (thenP c1 g3) (eatP s isSepChar)
  thenP (thenP c2 g3) d

/-- `boost::regex_search(text, phone_pattern)`: some alternative matches
between two word boundaries. -/
def phoneMatch (s : List Char) : Bool :=
  (List.range (s.length + 1)).any fun i =>
    boundaryAt s i && ((phoneAltA s i ++ phoneAltB s i).any (boundaryAt s))

/-! ### Malicious-content pattern catalog (SecurityAnalyzer.cpp lines 67-245) -/

/-- `std::string::find(pattern) != npos`: substring containment. -/
def containsSub (hay pat : List Char) : Bool :=
  hay.tails.any (fun t => pat.isPrefixOf t)

/-- `text_lower`: the input mapped through `::tolower` (ASCII). -/
def lowerData (text : String) : List Char :=
  text.data.map Char.toLower

/-- Does `text.find(pat) != npos` hold for lowered text `tl`? -/
def findsPattern (tl : List Char) (pat : String) : Bool :=
  containsSub tl pat.data

def sql_patterns : List String :=
  ["\x27 or \x27", "\x27 or 1=1", "\x27 or 1=1--", "\x27 or \x271\x27=\x271",
   "\x27 or \"1\"=\"1",
   "\x27 union select", "union all select", "\x27 having \x27", "\x27 group by \x27",
   "\x27 order by ", "\x27 drop table", "\x27; drop table", "\x27 delete from",
   "\x27 insert into",
   "\x27 update ", "\x27 alter table", "\x27 create table", "\x27 truncate ",
   "\x27; exec", "\x27; execute", "xp_cmdshell", "sp_executesql",
   "benchmark(", "sleep(", "waitfor delay", "pg_sleep(",
   "extractvalue(", "updatexml(", "load_file(", "into outfile",
   "information_schema", "mysql.user", "sysobjects", "syscolumns"]

def xss_patterns : List String :=
  ["<script", "</script>", "javascript:", "vbscript:", "onload=", "onerror=",
   "onclick=", "onmouseover=", "onfocus=", "onblur=", "onchange=",
   "onsubmit=", "onreset=", "onkeydown=", "onkeyup=", "onkeypress=",
   "document.cookie", "document.write", "window.location", "eval(",
   "settimeout(", "setinterval(", "innerhtml=", "outerhtml=",
   "document.getelementbyid", "alert(", "confirm(", "prompt(",
   "fromcharcode(", "unescape(", "string.fromcharcode"]

def cmd_patterns : List String :=
  ["; rm -rf", "; del ", "& echo", "| nc ", "| netcat", "; wget",
   "; curl", "; cat /etc/passwd", "; cat /etc/shadow", "$(", "`",
   "; ls -la", "; dir", "; whoami", "; id", "; uname", "; ps aux",
   "; netstat", "; ifconfig", "; ping", "; nslookup", "; dig",
   "; chmod +x", "; ./", "&&", "||", "; sh", "; bash", "; cmd",
   "; powershell", "& type", "& copy", "& move", "& ren"]

def nosql_patterns : List String :=
  ["$where", "$ne", "$in", "$nin", "$regex", "$exists", "$elemMatch",
   "$gt", "$gte", "$lt", "$lte", "$or", "$and", "$not", "$nor",
   "this.password", "this.username", "db.eval", "mapreduce",
   "return true", "return false", "; return ", "var x=", "var y="]

def ldap_patterns : List String :=
  [")(cn=*", ")(uid=*", ")(mail=*", ")(&", ")(|", "*)(uid=*",
   "*)(cn=*", "admin*", "*admin", ")(objectclass=*"]

def path_patterns : List String :=
  ["../", "..\\", "%2e%2e%2f", "%2e%2e%5c", "....//", "....\\\\",
   "/etc/passwd", "/etc/shadow", "/etc/hosts", "c:\\windows\\system32",
   "boot.ini", "web.config", ".env", ".htaccess", "/proc/self/environ"]

def xml_patterns : List String :=
  ["<!entity", "<!doctype", "system \"file://", "system \"http://",
   "system \"ftp://", "%xxe;", "&xxe;", "xml version=", "<?xml"]

def template_patterns : List String :=
  ["\x7b\x7b", "\x7d\x7d", "$\x7b", "#\x7b", "<%", "%>", "@\x7b", "[[", "]]",
   "__import__", "getattr(", "setattr(", "__builtins__",
   "exec(", "eval(", "compile(", "__globals__"]

/-- The code-execution list, in source order.  Note that `"bind("` occurs
twice (once in the JavaScript block, once in the network block). -/
def exec_patterns : List String :=
  ["system(", "exec(", "shell_exec(", "passthru(", "popen(",
   "proc_open(", "eval(", "base64_decode", "file_get_contents(",
   "fopen(", "fwrite(", "unlink(", "chmod(", "chown(", "mkdir(",
   "rmdir(", "symlink(", "readfile(", "include(", "require(",
   "preg_replace(", "create_function(", "call_user_func(",
   "__import__(", "getattr(", "setattr(", "hasattr(", "delattr(",
   "globals(", "locals(", "vars(", "dir(", "compile(", "execfile(",
   "input(", "raw_input(", "open(", "file(", "__builtins__",
   "function(", "new function", "constructor(", "apply(", "call(",
   "bind(", "with(", "delete ", "void(", "typeof ",
   "cmd.exe", "/bin/sh", "/bin/bash", "powershell.exe", "sh.exe",
   "bash.exe", "python.exe", "perl.exe", "ruby.exe", "java.exe",
   "curl(", "wget(", "fetch(", "xmlhttprequest", "ajax(",
   "socket(", "connect(", "bind(", "listen(", "accept("]

def suspicious_patterns : List String :=
  ["base64", "hex2bin", "bin2hex", "rot13", "str_rot13",
   "gzinflate(", "gzuncompress(", "bzdecompress(",
   "mcrypt_decrypt(", "openssl_decrypt(", "password_verify(",
   "crypt(", "md5(", "sha1(", "hash(", "hash_hmac("]

def sqlMsg : String := "Potential SQL injection attempt detected"
def xssMsg : String := "Potential XSS attack detected"
def cmdMsg : String := "Potential command injection attempt detected"
def nosqlMsg : String := "Potential NoSQL injection attempt detected"
def ldapMsg : String := "Potential LDAP injection attempt detected"
def pathMsg : String := "Potential path traversal attempt detected"
def xmlMsg : String := "Potential XML/XXE injection attempt detected"
def tmplMsg : String := "Potential template injection attempt detected"

def execMsgPre : String := "Potential code execution attempt detected: "
def suspMsgPre : String := "Suspicious function detected: "

/-- Issue string pushed for a matched code-execution pattern. -/
def execMsg (p : String) : String := execMsgPre ++ p

/-- Issue string pushed for a matched suspicious-function pattern. -/
def suspMsg (p : String) : String := suspMsgPre ++ p

/-- A first-match category loop: push the category message once if any
pattern of the list matched, i.e. `if b then [m] else []`. -/
def catChunk (b : Bool) (m : String) : List String :=
  if b then [m] else []

/-- `SecurityAnalyzer::detectMaliciousContent`.  The eight categories up to
template injection break out of their loop at the first matching pattern
(at most one message each); the code-execution and suspicious-function
loops push one message, containing the matched token, per pattern-list
entry that matches.  All categories search the lowered text except the
template category, which searches the original text.  The chunks appear in
the order the source pushes them. -/
def detectMaliciousContent (text : String) : List String :=
  catChunk (sql_patterns.any (findsPattern (lowerData text))) sqlMsg ++
  (catChunk (xss_patterns.any (findsPattern (lowerData text))) xssMsg ++
  (catChunk (cmd_patterns.any (findsPattern (lowerData text))) cmdMsg ++
  (catChunk (nosql_patterns.any (findsPattern (lowerData text))) nosqlMsg ++
  (catChunk (ldap_patterns.any (findsPattern (lowerData text))) ldapMsg ++
  (catChunk (path_patterns.any (findsPattern (lowerData text))) pathMsg ++
  (catChunk (xml_patterns.any (findsPattern (lowerData text))) xmlMsg ++
  (catChunk (template_patterns.any (findsPattern text.data)) tmplMsg ++
  ((exec_patterns.filter (findsPattern (lowerData text))).map execMsg ++
   (suspicious_patterns.filter (findsPattern (lowerData text))).map suspMsg))))))))

/-- The local `issues` vector of `SecurityAnalyzer::detectPII` before the
generic marker is inserted: one fixed entry per matched regex. -/
def piiIssues (text : String) : List String :=
  (if emailMatch text.data then ["Email address detected"] else []) ++
  ((if phoneMatch text.data then ["Phone number detected"] else []) ++
  (if ssnMatch text.data then ["Social Security Number detected"] else []))

/-- `SecurityAnalyzer::detectPII`: three independent regex searches; the
generic marker is prepended when any issue was found. -/
def detectPII (text : String) : List String :=
  if (piiIssues text).isEmpty then piiIssues text
  else "PII detected" :: piiIssues text

/-- `SecurityAnalyzer::calculateSafetyScore`: start at 1.0, subtract 0.5
for a non-empty malicious-content result, subtract 0.5 for a non-empty PII
result (the two sequential conditional subtractions are written as one
expression). -/
def calculateSafetyScore (text : String) : ℚ :=
  (1 - (if (detectMaliciousContent text).isEmpty then 0 else 1/2))
    - (if (detectPII text).isEmpty then 0 else 1/2)

/-- `SecurityAnalyzer::analyzeText`.  `th` is the instance member
`threshold_`; `b₀`, `c₀` are the indeterminate scalars of the
default-constructed result.  Both paths of this function overwrite all
four fields of the default-constructed result, so the records are written
as literals (`detected_issues` starts empty and receives the PII issues
followed by the malicious-content issues). -/
def analyzeText (th : ℚ) (b₀ : Bool) (c₀ : ℚ) (text : String) : AnalysisResult :=
  if text.length > MAX_FILE_SIZE then
    { is_safe := false
      confidence_score := 0
      detected_issues := ["File size exceeds maximum allowed size"]
      analysis_summary := "Text exceeds maximum allowed size" }
  else
    { is_safe := decide (calculateSafetyScore text ≥ th)
      confidence_score := calculateSafetyScore text
      detected_issues := detectPII text ++ detectMaliciousContent text
      analysis_summary :=
        "Text analysis completed. " ++
        (if decide (calculateSafetyScore text ≥ th) then "No security issues detected."
         else "Potential security issues identified.") }

/-- The part of a loaded poppler document that `analyzePDF` consumes: the
text extracted by `extractTextFromPDF` and the `has_embedded_files` flag. -/
structure PdfDoc where
  extracted_text : String
  has_embedded_files : Bool
deriving DecidableEq, Repr

/-- Lines 277-291 of `SecurityAnalyzer::analyzePDF`, applied to the text
result `r1`: overwrite the summary from `r1.is_safe`, and, when the text
verdict was safe and the document has embedded files, append the
embedded-content issue and multiply the confidence by 0.8; finally
re-derive `is_safe` from the (possibly penalized) confidence.  The
source's sequence of in-place updates is written as the equivalent
two-branch case split. -/
def pdfPostProcess (th : ℚ) (r1 : AnalysisResult) (emb : Bool) : AnalysisResult :=
  if r1.is_safe && emb then
    { is_safe := decide (r1.confidence_score * (8/10) ≥ th)
      confidence_score := r1.confidence_score * (8/10)
      detected_issues := r1.detected_issues ++ ["PDF contains embedded files"]
      analysis_summary := "PDF analysis completed. No security issues detected in extracted text." }
  else
    { is_safe := decide (r1.confidence_score ≥ th)
      confidence_score := r1.confidence_score
      detected_issues := r1.detected_issues
      analysis_summary :=
        "PDF analysis completed. " ++
        (if r1.is_safe then "No security issues detected in extracted text."
         else "Potential security issues identified in extracted text.") }

/-- `SecurityAnalyzer::analyzePDF`.  The poppler load is an external
collaborator: `load` is `Except.error e` when an exception with message `e`
is thrown, `Except.ok none` when `loadPDF` returns a null document, and
`Except.ok (some doc)` on success.  `pdf_size` is `pdf_data.size()`.
Note that the size-exceeded, null-document and exception paths return a
result whose `confidence_score` is still the indeterminate `c₀` and whose
summary is still empty: unlike `analyzeText`, this function does not set
them. -/
def analyzePDF (th : ℚ) (b₀ : Bool) (c₀ : ℚ) (pdf_size : Nat)
    (load : Except String (Option PdfDoc)) : AnalysisResult :=
  if pdf_size > MAX_FILE_SIZE then
    { AnalysisResult.mkDefault b₀ c₀ with
        is_safe := false
        detected_issues := ["File size exceeds maximum allowed size"] }
  else
    match load with
    | Except.error e =>
        { AnalysisResult.mkDefault b₀ c₀ with
            is_safe := false
            detected_issues := ["Error processing PDF: " ++ e] }
    | Except.ok none =>
        { AnalysisResult.mkDefault b₀ c₀ with
            is_safe := false
            detected_issues := ["invalid_or_corrupted_pdf"] }
    | Except.ok (some doc) =>
        pdfPostProcess th (analyzeText th b₀ c₀ doc.extracted_text) doc.has_embedded_files

/-- `SecurityAnalyzer::isContentSafe`: the result must be flagged safe by
`analyzeText` (which compares against the instance threshold) and clear
the explicitly supplied `threshold` as well. -/
def isContentSafe (th : ℚ) (b₀ : Bool) (c₀ : ℚ) (content : String) (threshold : ℚ) : Bool :=
  (analyzeText th b₀ c₀ content).is_safe &&
    decide ((analyzeText th b₀ c₀ content).confidence_score ≥ threshold)

namespace MLInference

/-- Token scan for `std::istream_iterator<std::string>`: count the maximal
nonempty runs of non-whitespace characters.  `inTok` records whether the
previous character belonged to a token. -/
def countTokensAux : List Char → Bool → Nat
  | [], _ => 0
  | c :: rest, inTok =>
      if isSpaceChar c then countTokensAux rest false
      else (if inTok then 0 else 1) + countTokensAux rest true

/-- Number of whitespace-delimited tokens, as counted by
`std::istream_iterator<std::string>`. -/
def wordCount (text : String) : Nat :=
  countTokensAux text.data false

/-- `std::count_if(text.begin(), text.end(), ::isupper)`. -/
def capitalCount (text : String) : Nat :=
  text.data.countP Char.isUpper

/-- Count of characters that are neither alphanumeric nor whitespace. -/
def specialCount (text : String) : Nat :=
  text.data.countP (fun c => !c.isAlphanum && !isSpaceChar c)

/-- `std::count`-style count of alphabetic characters (the C++ loop
`for (const auto& word : text)` iterates over characters, not words). -/
def alphaCount (text : String) : Nat :=
  text.data.countP Char.isAlpha

/-- `MLInference::processTextFeatures`: length, capital ratio, special
ratio.  For empty text the C++ divides by `text.length() == 0`, producing
NaN; that failure is modelled as `none`. -/
def processTextFeatures (text : String) : Option (List ℚ) :=
  if text.length = 0 then none
  else some [(text.length : ℚ),
             (capitalCount text : ℚ) / (text.length : ℚ),
             (specialCount text : ℚ) / (text.length : ℚ)]

/-- `MLInference::processStatisticalFeatures`: word count and average word
length.  For zero `word_count` the C++ divides by zero, producing NaN;
that failure is modelled as `none`. -/
def processStatisticalFeatures (text : String) : Option (List ℚ) :=
  if wordCount text = 0 then none
  else some [(wordCount text : ℚ),
             (alphaCount text : ℚ) / (wordCount text : ℚ)]

end MLInference

/-! ## Claim theorems -/

/-- Claim C2: the rule-based safety score equals 1.0 minus 0.5 per flagged
detector, the floor clamp at 0.0 never changes the value, and the score is
always one of 0, 1/2, 1 (hence in `[0,1]`). -/
theorem calculateSafetyScore_values (text : String) :
    calculateSafetyScore text =
      max 0 ((1 - (if (detectMaliciousContent text).isEmpty then 0 else 1/2))
        - (if (detectPII text).isEmpty then 0 else 1/2)) ∧
    (calculateSafetyScore text = 0 ∨ calculateSafetyScore text = 1/2 ∨
      calculateSafetyScore text = 1) ∧
    0 ≤ calculateSafetyScore text ∧ calculateSafetyScore text ≤ 1 := by
  cases hm : (detectMaliciousContent text).isEmpty <;>
    cases hp : (detectPII text).isEmpty <;>
      simp [calculateSafetyScore, hm, hp] <;> norm_num

/-- Claim C7 (code-bug evidence): on the empty text the rule-based scorer
does return 1.0, but `MLInference` feature extraction evaluates the
denominators `text.length() = 0` and `word_count = 0` (modelled as `none`),
contradicting the required special-casing. -/
theorem emptyText_score_one_but_feature_extraction_fails :
    calculateSafetyScore "" = 1 ∧
    MLInference.processTextFeatures "" = none ∧
    MLInference.processStatisticalFeatures "" = none := by
  have hm : (detectMaliciousContent "").isEmpty = true := by decide
  have hp : (detectPII "").isEmpty = true := by decide
  refine ⟨?_, by decide, by decide⟩
  simp [calculateSafetyScore, hm, hp]

/-- Claim C4: the PII detector returns the empty list when no regex
matches; otherwise it returns the generic marker followed by exactly one
descriptive entry per matched category, the three checks being
independent. -/
theorem detectPII_structure (text : String) :
    detectPII text =
      (if (emailMatch text.data || phoneMatch text.data || ssnMatch text.data) then
        "PII detected" :: piiIssues text
       else []) ∧
    ((detectPII text).count "PII detected"
        = if (emailMatch text.data || phoneMatch text.data || ssnMatch text.data) then 1 else 0) ∧
    ((detectPII text).count "Email address detected"
        = if emailMatch text.data then 1 else 0) ∧
    ((detectPII text).count "Phone number detected"
        = if phoneMatch text.data then 1 else 0) ∧
    ((detectPII text).count "Social Security Number detected"
        = if ssnMatch text.data then 1 else 0) := by
  cases he : emailMatch text.data <;> cases hp : phoneMatch text.data <;>
    cases hs : ssnMatch text.data <;>
      simp [detectPII, piiIssues, he, hp, hs]

/-- Claim C10: `isContentSafe` passes exactly when the input is within the
size cap and the score clears both the instance threshold and the supplied
threshold; in particular a lax supplied threshold never overrides an
unsafe verdict.  -/
theorem isContentSafe_both_thresholds (th : ℚ) (b₀ : Bool) (c₀ : ℚ)
    (content : String) (t : ℚ) :
    (isContentSafe th b₀ c₀ content t = true ↔
      (content.length ≤ MAX_FILE_SIZE ∧ th ≤ calculateSafetyScore content ∧
        t ≤ calculateSafetyScore content)) ∧
    ((analyzeText th b₀ c₀ content).is_safe = false →
      isContentSafe th b₀ c₀ content t = false) := by
  constructor
  · by_cases h : content.length > MAX_FILE_SIZE
    · simp [isContentSafe, analyzeText, h]
    · simp [isContentSafe, analyzeText, h, ge_iff_le]
      intro _ _
      omega
  · intro hfalse
    unfold isContentSafe
    rw [hfalse]
    rfl

/-- Witness for C10 at a concrete safe input. -/
theorem isContentSafe_both_thresholds_witness :
    isContentSafe (4/5) true 0 "abc" (1/2) = true := by
  have hm : (detectMaliciousContent "abc").isEmpty = true := by decide
  have hp : (detectPII "abc").isEmpty = true := by decide
  have hscore : calculateSafetyScore "abc" = 1 := by simp [calculateSafetyScore, hm, hp]
  exact (isContentSafe_both_thresholds (4/5) true 0 "abc" (1/2)).1.mpr
    ⟨by decide, by rw [hscore]; norm_num, by rw [hscore]; norm_num⟩

/-- Claim C1 as amended: `is_safe == (confidence_score >= threshold)` holds
for `analyzeText` away from the size short-circuit (which forces
`false`/`0.0`), and for `analyzePDF` on the successful-load path; the
size-exceeded path of `analyzePDF` forces `is_safe = false` but leaves the
confidence at its default-initialized value `c₀` instead of `0.0`. -/
theorem safe_iff_threshold_amended (th : ℚ) (b₀ : Bool) (c₀ : ℚ) (text : String)
    (pdf_size : Nat) (doc : PdfDoc) (hsize : pdf_size ≤ MAX_FILE_SIZE) :
    ((analyzeText th b₀ c₀ text).is_safe
        = decide ((analyzeText th b₀ c₀ text).confidence_score ≥ th)
      ∨ (text.length > MAX_FILE_SIZE
         ∧ (analyzeText th b₀ c₀ text).is_safe = false
         ∧ (analyzeText th b₀ c₀ text).confidence_score = 0)) ∧
    ((analyzePDF th b₀ c₀ pdf_size (Except.ok (some doc))).is_safe
      = decide ((analyzePDF th b₀ c₀ pdf_size (Except.ok (some doc))).confidence_score ≥ th)) ∧
    ((analyzePDF th b₀ c₀ (MAX_FILE_SIZE + 1) (Except.ok (some doc))).is_safe = false
      ∧ (analyzePDF th b₀ c₀ (MAX_FILE_SIZE + 1) (Except.ok (some doc))).confidence_score = c₀) := by
  refine ⟨?_, ?_, ?_⟩
  · by_cases h : text.length > MAX_FILE_SIZE
    · exact Or.inr ⟨h, by simp [analyzeText, h], by simp [analyzeText, h]⟩
    · exact Or.inl (by simp [analyzeText, h])
  · have h2 : ¬ pdf_size > MAX_FILE_SIZE := by omega
    simp only [analyzePDF, h2, if_false, pdfPostProcess]
    split <;> rfl
  · have h3 : MAX_FILE_SIZE + 1 > MAX_FILE_SIZE := Nat.lt_succ_self _
    constructor <;> simp [analyzePDF, h3, AnalysisResult.mkDefault]

/-- Witness for C1's amended theorem on the successful-load path. -/
theorem safe_iff_threshold_amended_witness :
    (analyzePDF (4/5) true (3/4) 5 (Except.ok (some ⟨"hello", false⟩))).is_safe
      = decide ((analyzePDF (4/5) true (3/4) 5
          (Except.ok (some ⟨"hello", false⟩))).confidence_score ≥ (4/5 : ℚ)) :=
  (safe_iff_threshold_amended (4/5) true (3/4) "x" 5 ⟨"hello", false⟩ (by decide)).2.1

/-- Counterexample to claim C1 as stated: for a failed PDF load (null
document) the code forces `is_safe = false` although the (default-
initialized, here 1) confidence clears the threshold, and the result is
not the size-exceeded short-circuit. -/
theorem analyzePDF_invalid_breaks_safe_iff :
    (analyzePDF (4/5) true 1 0 (Except.ok none)).is_safe = false ∧
    (analyzePDF (4/5) true 1 0 (Except.ok none)).confidence_score = 1 ∧
    decide ((analyzePDF (4/5) true 1 0 (Except.ok none)).confidence_score ≥ (4/5 : ℚ)) = true ∧
    (analyzePDF (4/5) true 1 0 (Except.ok none)).detected_issues
      = ["invalid_or_corrupted_pdf"] := by
  refine ⟨rfl, rfl, ?_, rfl⟩
  rw [decide_eq_true_eq]
  show (1 : ℚ) ≥ 4/5
  norm_num

/-- Text of `MAX_FILE_SIZE + 1` bytes. -/
def oversizedText : String := String.mk (List.replicate (MAX_FILE_SIZE + 1) 'a')

/-- Claim C3 (code-bug evidence): on an oversized PDF input the code keeps
the default-initialized confidence (here 7/10) and the empty summary
instead of the documented `0.0` / "Text exceeds maximum allowed size",
while the oversized-text path of `analyzeText` does return the full
documented terminal result. -/
theorem analyzePDF_oversize_leaks_default_fields :
    analyzePDF (4/5) false (7/10) (MAX_FILE_SIZE + 1) (Except.ok none) =
      { is_safe := false, confidence_score := 7/10,
        detected_issues := ["File size exceeds maximum allowed size"],
        analysis_summary := "" } ∧
    analyzeText (4/5) false (7/10) oversizedText =
      { is_safe := false, confidence_score := 0,
        detected_issues := ["File size exceeds maximum allowed size"],
        analysis_summary := "Text exceeds maximum allowed size" } := by
  constructor
  · rfl
  · have hlen : oversizedText.length > MAX_FILE_SIZE := by
      show (List.replicate (MAX_FILE_SIZE + 1) 'a').length > MAX_FILE_SIZE
      simp
    unfold analyzeText
    rw [if_pos hlen]

/-- Claim C8 as amended: only a null (failed) load short-circuits with
`invalid_or_corrupted_pdf`, and a thrown extraction error yields an
"Error processing PDF: ..." issue; both happen before any text analysis
(the returned fields are exactly the default-constructed ones plus the
issue string and the `false` verdict). -/
theorem analyzePDF_load_failure_paths (th : ℚ) (b₀ : Bool) (c₀ : ℚ) (pdf_size : Nat)
    (e : String) (hsize : pdf_size ≤ MAX_FILE_SIZE) :
    analyzePDF th b₀ c₀ pdf_size (Except.ok none) =
      { is_safe := false, confidence_score := c₀,
        detected_issues := ["invalid_or_corrupted_pdf"], analysis_summary := "" } ∧
    analyzePDF th b₀ c₀ pdf_size (Except.error e) =
      { is_safe := false, confidence_score := c₀,
        detected_issues := ["Error processing PDF: " ++ e], analysis_summary := "" } := by
  have h2 : ¬ pdf_size > MAX_FILE_SIZE := by omega
  constructor <;> simp [analyzePDF, h2, AnalysisResult.mkDefault]

/-- Witness for C8's amended theorem. -/
theorem analyzePDF_load_failure_paths_witness :
    analyzePDF (4/5) true (9/10) 3 (Except.ok none) =
      { is_safe := false, confidence_score := 9/10,
        detected_issues := ["invalid_or_corrupted_pdf"], analysis_summary := "" } :=
  (analyzePDF_load_failure_paths (4/5) true (9/10) 3 "boom" (by decide)).1

/-- Counterexample to claim C8 as stated: a successfully loaded but empty
document is not short-circuited to `invalid_or_corrupted_pdf`; its (empty)
extracted text is analyzed normally and comes back safe with score 1. -/
theorem analyzePDF_emptyDoc_analyzed_normally :
    analyzePDF (4/5) true 0 0
        (Except.ok (some { extracted_text := "", has_embedded_files := false })) =
      { is_safe := true, confidence_score := 1, detected_issues := [],
        analysis_summary := "PDF analysis completed. No security issues detected in extracted text." } := by
  have hlen : ¬ ("" : String).length > MAX_FILE_SIZE := by decide
  have h0 : ¬ (0 : Nat) > MAX_FILE_SIZE := by decide
  have hm : detectMaliciousContent "" = [] := by decide
  have hp : detectPII "" = [] := by decide
  have hscore : calculateSafetyScore "" = 1 := by simp [calculateSafetyScore, hm, hp]
  have hsafe1 : decide ((1 : ℚ) ≥ 4/5) = true := by
    rw [decide_eq_true_eq]
    norm_num
  have hr1 : analyzeText (4/5) true 0 "" =
      { is_safe := true, confidence_score := 1, detected_issues := [],
        analysis_summary := "Text analysis completed. No security issues detected." } := by
    simp [analyzeText, hlen, hscore, hsafe1, hm, hp]
  have hpdf : analyzePDF (4/5) true 0 0
      (Except.ok (some { extracted_text := "", has_embedded_files := false })) =
      pdfPostProcess (4/5) (analyzeText (4/5) true 0 "") false := by
    simp [analyzePDF, h0]
  rw [hpdf, hr1]
  simp [pdfPostProcess, hsafe1]

/-- Claim C9: when the text analysis of the extracted text is safe and the
document has embedded files, the confidence is multiplied by 0.8, the
embedded-content issue is appended, and `is_safe` is re-derived from the
penalized score. -/
theorem analyzePDF_embedded_penalty (th : ℚ) (b₀ : Bool) (c₀ : ℚ) (pdf_size : Nat)
    (doc : PdfDoc) (hsize : pdf_size ≤ MAX_FILE_SIZE)
    (hsafe : (analyzeText th b₀ c₀ doc.extracted_text).is_safe = true)
    (hemb : doc.has_embedded_files = true) :
    analyzePDF th b₀ c₀ pdf_size (Except.ok (some doc)) =
      { is_safe := decide ((analyzeText th b₀ c₀ doc.extracted_text).confidence_score * (8/10) ≥ th)
        confidence_score := (analyzeText th b₀ c₀ doc.extracted_text).confidence_score * (8/10)
        detected_issues := (analyzeText th b₀ c₀ doc.extracted_text).detected_issues
          ++ ["PDF contains embedded files"]
        analysis_summary := "PDF analysis completed. No security issues detected in extracted text." } := by
  have h2 : ¬ pdf_size > MAX_FILE_SIZE := by omega
  simp [analyzePDF, h2, pdfPostProcess, hsafe, hemb]

/-- Witness for C9 on a concrete empty document with embedded files. -/
theorem analyzePDF_embedded_penalty_witness :
    analyzePDF (4/5) true 0 0
        (Except.ok (some { extracted_text := "", has_embedded_files := true })) =
      { is_safe := decide ((analyzeText (4/5) true 0 "").confidence_score * (8/10) ≥ (4/5 : ℚ))
        confidence_score := (analyzeText (4/5) true 0 "").confidence_score * (8/10)
        detected_issues := (analyzeText (4/5) true 0 "").detected_issues
          ++ ["PDF contains embedded files"]
        analysis_summary := "PDF analysis completed. No security issues detected in extracted text." } := by
  have hlen : ¬ ("" : String).length > MAX_FILE_SIZE := by decide
  have hm : detectMaliciousContent "" = [] := by decide
  have hp : detectPII "" = [] := by decide
  have hscore : calculateSafetyScore "" = 1 := by simp [calculateSafetyScore, hm, hp]
  have hsafe1 : decide ((1 : ℚ) ≥ 4/5) = true := by
    rw [decide_eq_true_eq]
    norm_num
  exact analyzePDF_embedded_penalty (4/5) true 0 0 ⟨"", true⟩ (by decide)
    (by simp [analyzeText, hlen, hscore, hsafe1]) rfl

/-! ## Catalog structure, for claims C5 and C6 -/

/-- The eight single-shot category messages in push order. -/
def categoryMsgs : List String :=
  [sqlMsg, xssMsg, cmdMsg, nosqlMsg, ldapMsg, pathMsg, xmlMsg, tmplMsg]

/-- Universe of issue strings in source order (with both catalog copies of
`"bind("`). -/
def masterList : List String :=
  categoryMsgs ++ (exec_patterns.map execMsg ++ suspicious_patterns.map suspMsg)

/-- `exec_patterns` entries before the first `"bind("`. -/
def execX : List String :=
  ["system(", "exec(", "shell_exec(", "passthru(", "popen(",
   "proc_open(", "eval(", "base64_decode", "file_get_contents(",
   "fopen(", "fwrite(", "unlink(", "chmod(", "chown(", "mkdir(",
   "rmdir(", "symlink(", "readfile(", "include(", "require(",
   "preg_replace(", "create_function(", "call_user_func(",
   "__import__(", "getattr(", "setattr(", "hasattr(", "delattr(",
   "globals(", "locals(", "vars(", "dir(", "compile(", "execfile(",
   "input(", "raw_input(", "open(", "file(", "__builtins__",
   "function(", "new function", "constructor(", "apply(", "call("]

/-- `exec_patterns` entries strictly between the two `"bind("` copies. -/
def execY : List String :=
  ["with(", "delete ", "void(", "typeof ",
   "cmd.exe", "/bin/sh", "/bin/bash", "powershell.exe", "sh.exe",
   "bash.exe", "python.exe", "perl.exe", "ruby.exe", "java.exe",
   "curl(", "wget(", "fetch(", "xmlhttprequest", "ajax(",
   "socket(", "connect("]

/-- `exec_patterns` entries after the second `"bind("`. -/
def execZ : List String :=
  ["listen(", "accept("]

/-- The code-execution list splits around its two `"bind("` copies. -/
theorem exec_decomp :
    exec_patterns = execX ++ ("bind(" :: (execY ++ ("bind(" :: execZ))) := rfl

/-- The code-execution list with the first `"bind("` copy removed (the only
duplicated entry of the whole catalog). -/
def exec_dedup : List String :=
  execX ++ (execY ++ ("bind(" :: execZ))

/-- Issue-string universe with the duplicate `"bind("` entry removed. -/
def masterDedup : List String :=
  categoryMsgs ++ (exec_dedup.map execMsg ++ suspicious_patterns.map suspMsg)

theorem categoryMsgs_nodup : categoryMsgs.Nodup := by decide

theorem exec_dedup_nodup : exec_dedup.Nodup := by decide

theorem suspicious_nodup : suspicious_patterns.Nodup := by decide

/-! ### Issue-string helper lemmas -/

theorem eq_of_data_eq {a b : String} (h : a.data = b.data) : a = b := by
  cases a
  cases b
  exact congrArg String.mk h

theorem execMsg_data (p : String) : (execMsg p).data = execMsgPre.data ++ p.data := by
  simp [execMsg, String.data_append]

theorem suspMsg_data (q : String) : (suspMsg q).data = suspMsgPre.data ++ q.data := by
  simp [suspMsg, String.data_append]

theorem execMsg_injective : Function.Injective execMsg := by
  intro p q h
  have h2 : execMsgPre.data ++ p.data = execMsgPre.data ++ q.data := by
    have h3 := congrArg String.data h
    rw [execMsg_data, execMsg_data] at h3
    exact h3
  exact eq_of_data_eq (List.append_cancel_left h2)

theorem suspMsg_injective : Function.Injective suspMsg := by
  intro p q h
  have h2 : suspMsgPre.data ++ p.data = suspMsgPre.data ++ q.data := by
    have h3 := congrArg String.data h
    rw [suspMsg_data, suspMsg_data] at h3
    exact h3
  exact eq_of_data_eq (List.append_cancel_left h2)

theorem execMsgPre_starts (p : String) : execMsgPre.data <+: (execMsg p).data := by
  rw [execMsg_data]
  exact List.prefix_append _ _

theorem suspMsgPre_starts (q : String) : suspMsgPre.data <+: (suspMsg q).data := by
  rw [suspMsg_data]
  exact List.prefix_append _ _

theorem execMsgPre_data_eq :
    execMsgPre.data = 'P' :: ("otential code execution attempt detected: ").data := rfl

theorem suspMsgPre_data_eq :
    suspMsgPre.data = 'S' :: ("uspicious function detected: ").data := rfl

theorem not_execMsgPre_starts_suspMsg (q : String) :
    ¬ execMsgPre.data <+: (suspMsg q).data := by
  rw [suspMsg_data, execMsgPre_data_eq, suspMsgPre_data_eq]
  rintro ⟨t, ht⟩
  have hh : 'P' = 'S' := by
    have h0 := congrArg List.head? ht
    simpa using h0
  exact absurd hh (by decide)

theorem not_suspMsgPre_starts_execMsg (p : String) :
    ¬ suspMsgPre.data <+: (execMsg p).data := by
  rw [execMsg_data, execMsgPre_data_eq, suspMsgPre_data_eq]
  rintro ⟨t, ht⟩
  have hh : 'S' = 'P' := by
    have h0 := congrArg List.head? ht
    simpa using h0
  exact absurd hh (by decide)

theorem execMsg_ne_of_not_starts {m : String}
    (hm : ¬ execMsgPre.data <+: m.data) (p : String) : execMsg p ≠ m :=
  fun h => hm (h ▸ execMsgPre_starts p)

theorem suspMsg_ne_of_not_starts {m : String}
    (hm : ¬ suspMsgPre.data <+: m.data) (q : String) : suspMsg q ≠ m :=
  fun h => hm (h ▸ suspMsgPre_starts q)

/-! ### Sublist scaffolding -/

theorem catChunk_cons_sublist {l1 l2 : List String} (b : Bool) (m : String)
    (h : l1.Sublist l2) : (catChunk b m ++ l1).Sublist (m :: l2) := by
  cases b with
  | false => simpa [catChunk] using List.Sublist.cons m h
  | true => simpa [catChunk] using List.Sublist.cons₂ m h

theorem chunks_append_sublist {L T : List String} (h : L.Sublist T)
    (b1 b2 b3 b4 b5 b6 b7 b8 : Bool) :
    (catChunk b1 sqlMsg ++ (catChunk b2 xssMsg ++ (catChunk b3 cmdMsg ++
     (catChunk b4 nosqlMsg ++ (catChunk b5 ldapMsg ++ (catChunk b6 pathMsg ++
     (catChunk b7 xmlMsg ++ (catChunk b8 tmplMsg ++ L)))))))).Sublist
      (categoryMsgs ++ T) := by
  rw [categoryMsgs]
  simp only [List.cons_append, List.nil_append]
  exact catChunk_cons_sublist _ _ (catChunk_cons_sublist _ _ (catChunk_cons_sublist _ _
    (catChunk_cons_sublist _ _ (catChunk_cons_sublist _ _ (catChunk_cons_sublist _ _
    (catChunk_cons_sublist _ _ (catChunk_cons_sublist _ _ h)))))))

/-- Every issue list produced by the detector is a sublist of the
source-ordered issue universe. -/
theorem detect_sublist (text : String) :
    (detectMaliciousContent text).Sublist masterList := by
  unfold detectMaliciousContent masterList
  exact chunks_append_sublist
    (List.Sublist.append ((List.filter_sublist _).map _) ((List.filter_sublist _).map _))
    _ _ _ _ _ _ _ _

theorem disjoint_execMap_suspMap (lE lS : List String) :
    List.Disjoint (lE.map execMsg) (lS.map suspMsg) := by
  intro a hae has
  obtain ⟨p, -, rfl⟩ := List.mem_map.mp hae
  obtain ⟨q, -, hq⟩ := List.mem_map.mp has
  exact not_execMsgPre_starts_suspMsg q (by rw [hq]; exact execMsgPre_starts p)

theorem disjoint_cat_maps (lE lS : List String) :
    List.Disjoint categoryMsgs (lE.map execMsg ++ lS.map suspMsg) := by
  intro a ha hb
  rcases List.mem_append.mp hb with hbe | hbs
  · obtain ⟨p, -, rfl⟩ := List.mem_map.mp hbe
    have hpre := execMsgPre_starts p
    simp only [categoryMsgs, List.mem_cons, List.not_mem_nil, or_false] at ha
    rcases ha with h|h|h|h|h|h|h|h <;> (rw [h] at hpre; revert hpre; decide)
  · obtain ⟨q, -, rfl⟩ := List.mem_map.mp hbs
    have hpre := suspMsgPre_starts q
    simp only [categoryMsgs, List.mem_cons, List.not_mem_nil, or_false] at ha
    rcases ha with h|h|h|h|h|h|h|h <;> (rw [h] at hpre; revert hpre; decide)

theorem masterDedup_nodup : masterDedup.Nodup := by
  rw [masterDedup, List.nodup_append, List.nodup_append]
  exact ⟨categoryMsgs_nodup,
    ⟨exec_dedup_nodup.map execMsg_injective,
     suspicious_nodup.map suspMsg_injective,
     disjoint_execMap_suspMap _ _⟩,
    disjoint_cat_maps _ _⟩

theorem erase_catChunk_append {a m : String} (h : a ≠ m) (b : Bool) (l : List String) :
    (catChunk b m ++ l).erase a = catChunk b m ++ l.erase a :=
  List.erase_append_right l (by cases b <;> simp [catChunk, h])

/-- Claim C6 as amended: within one call the malicious-content issue list
has no duplicates apart from the doubly-listed `"bind("` code-execution
entry; erasing a single copy of that entry always leaves a
duplicate-free list. -/
theorem detectMalicious_erase_bind_nodup (text : String) :
    ((detectMaliciousContent text).erase (execMsg "bind(")).Nodup := by
  unfold detectMaliciousContent
  rw [erase_catChunk_append (by decide) _ _, erase_catChunk_append (by decide) _ _,
      erase_catChunk_append (by decide) _ _, erase_catChunk_append (by decide) _ _,
      erase_catChunk_append (by decide) _ _, erase_catChunk_append (by decide) _ _,
      erase_catChunk_append (by decide) _ _, erase_catChunk_append (by decide) _ _]
  cases hb : findsPattern (lowerData text) "bind(" with
  | false =>
    have heE : execMsg "bind(" ∉
        (exec_patterns.filter (findsPattern (lowerData text))).map execMsg := by
      intro hmem
      obtain ⟨p, hpmem, hpe⟩ := List.mem_map.mp hmem
      have hp := execMsg_injective hpe
      subst hp
      have h2 := (List.mem_filter.mp hpmem).2
      simp [hb] at h2
    have heS : execMsg "bind(" ∉
        (suspicious_patterns.filter (findsPattern (lowerData text))).map suspMsg := by
      intro hmem
      obtain ⟨q, -, hq⟩ := List.mem_map.mp hmem
      exact not_execMsgPre_starts_suspMsg q (by rw [hq]; exact execMsgPre_starts _)
    rw [List.erase_append_right _ heE, List.erase_of_not_mem heS]
    refine List.Nodup.sublist ?_ masterDedup_nodup
    rw [masterDedup]
    refine chunks_append_sublist (List.Sublist.append (List.Sublist.map _ ?_)
      ((List.filter_sublist _).map _)) _ _ _ _ _ _ _ _
    rw [exec_decomp, exec_dedup]
    simp only [List.filter_append, List.filter_cons, hb]
    exact List.Sublist.append (List.filter_sublist _)
      (List.Sublist.append (List.filter_sublist _)
        (List.Sublist.cons _ (List.filter_sublist _)))
  | true =>
    have heE : execMsg "bind(" ∈
        (exec_patterns.filter (findsPattern (lowerData text))).map execMsg :=
      List.mem_map.mpr ⟨"bind(", List.mem_filter.mpr ⟨by decide, hb⟩, rfl⟩
    rw [List.erase_append_left _ heE, ← List.map_erase execMsg_injective]
    have hX : "bind(" ∉ execX.filter (findsPattern (lowerData text)) :=
      fun hmem => absurd (List.mem_of_mem_filter hmem) (by decide)
    have hEr : (exec_patterns.filter (findsPattern (lowerData text))).erase "bind(" =
        execX.filter (findsPattern (lowerData text)) ++
        (execY.filter (findsPattern (lowerData text)) ++
         ("bind(" :: execZ.filter (findsPattern (lowerData text)))) := by
      rw [exec_decomp]
      simp only [List.filter_append, List.filter_cons, hb, if_true]
      rw [List.erase_append_right _ hX, List.erase_cons_head]
    rw [hEr]
    refine List.Nodup.sublist ?_ masterDedup_nodup
    rw [masterDedup]
    refine chunks_append_sublist (List.Sublist.append (List.Sublist.map _ ?_)
      ((List.filter_sublist _).map _)) _ _ _ _ _ _ _ _
    rw [exec_dedup]
    exact List.Sublist.append (List.filter_sublist _)
      (List.Sublist.append (List.filter_sublist _)
        (List.Sublist.cons₂ _ (List.filter_sublist _)))

/-- Counterexample to claim C6 as stated: on input `"bind("` the
(code-execution, `"bind("`) pair is reported twice, because the token is
listed twice in `exec_patterns`. -/
theorem detectMalicious_bind_duplicate :
    detectMaliciousContent "bind(" = [execMsg "bind(", execMsg "bind("] ∧
    ¬ (detectMaliciousContent "bind(").Nodup := by
  exact ⟨by decide, by decide⟩

/-- Classifier for code-execution issue strings. -/
def isExecIssue (m : String) : Bool :=
  execMsgPre.data.isPrefixOf m.data

/-- Classifier for suspicious-function issue strings. -/
def isSuspIssue (m : String) : Bool :=
  suspMsgPre.data.isPrefixOf m.data

theorem filter_catChunk_append {P : String → Bool} {m : String} (h : P m = false)
    (b : Bool) (l : List String) :
    (catChunk b m ++ l).filter P = l.filter P := by
  cases b <;> simp [catChunk, h]

/-- Claim C5 as amended: each of the eight first-match categories reports
at most one issue, while the code-execution and suspicious-function
categories report exactly one entry per matching pattern-list entry, the
message carrying the matched token (since `"bind("` is listed twice in
`exec_patterns`, that single token produces two entries). -/
theorem detectMalicious_per_category_policy (text : String) :
    ((detectMaliciousContent text).count sqlMsg ≤ 1 ∧
     (detectMaliciousContent text).count xssMsg ≤ 1 ∧
     (detectMaliciousContent text).count cmdMsg ≤ 1 ∧
     (detectMaliciousContent text).count nosqlMsg ≤ 1 ∧
     (detectMaliciousContent text).count ldapMsg ≤ 1 ∧
     (detectMaliciousContent text).count pathMsg ≤ 1 ∧
     (detectMaliciousContent text).count xmlMsg ≤ 1 ∧
     (detectMaliciousContent text).count tmplMsg ≤ 1) ∧
    (detectMaliciousContent text).filter isExecIssue
      = (exec_patterns.filter (findsPattern (lowerData text))).map execMsg ∧
    (detectMaliciousContent text).filter isSuspIssue
      = (suspicious_patterns.filter (findsPattern (lowerData text))).map suspMsg := by
  refine ⟨⟨?_, ?_, ?_, ?_, ?_, ?_, ?_, ?_⟩, ?_, ?_⟩
  · exact ((detect_sublist text).count_le _).trans (by decide)
  · exact ((detect_sublist text).count_le _).trans (by decide)
  · exact ((detect_sublist text).count_le _).trans (by decide)
  · exact ((detect_sublist text).count_le _).trans (by decide)
  · exact ((detect_sublist text).count_le _).trans (by decide)
  · exact ((detect_sublist text).count_le _).trans (by decide)
  · exact ((detect_sublist text).count_le _).trans (by decide)
  · exact ((detect_sublist text).count_le _).trans (by decide)
  · have e1 : isExecIssue sqlMsg = false := by decide
    have e2 : isExecIssue xssMsg = false := by decide
    have e3 : isExecIssue cmdMsg = false := by decide
    have e4 : isExecIssue nosqlMsg = false := by decide
    have e5 : isExecIssue ldapMsg = false := by decide
    have e6 : isExecIssue pathMsg = false := by decide
    have e7 : isExecIssue xmlMsg = false := by decide
    have e8 : isExecIssue tmplMsg = false := by decide
    unfold detectMaliciousContent
    rw [filter_catChunk_append e1, filter_catChunk_append e2, filter_catChunk_append e3,
        filter_catChunk_append e4, filter_catChunk_append e5, filter_catChunk_append e6,
        filter_catChunk_append e7, filter_catChunk_append e8, List.filter_append]
    have h2 : ((suspicious_patterns.filter (findsPattern (lowerData text))).map suspMsg).filter
        isExecIssue = [] := by
      rw [List.filter_eq_nil_iff]
      intro a ha
      obtain ⟨q, -, rfl⟩ := List.mem_map.mp ha
      simpa [isExecIssue, List.isPrefixOf_iff_prefix] using not_execMsgPre_starts_suspMsg q
    have h1 : ((exec_patterns.filter (findsPattern (lowerData text))).map execMsg).filter
        isExecIssue = (exec_patterns.filter (findsPattern (lowerData text))).map execMsg := by
      rw [List.filter_eq_self]
      intro a ha
      obtain ⟨p, -, rfl⟩ := List.mem_map.mp ha
      simpa [isExecIssue, List.isPrefixOf_iff_prefix] using execMsgPre_starts p
    rw [h1, h2, List.append_nil]
  · have s1 : isSuspIssue sqlMsg = false := by decide
    have s2 : isSuspIssue xssMsg = false := by decide
    have s3 : isSuspIssue cmdMsg = false := by decide
    have s4 : isSuspIssue nosqlMsg = false := by decide
    have s5 : isSuspIssue ldapMsg = false := by decide
    have s6 : isSuspIssue pathMsg = false := by decide
    have s7 : isSuspIssue xmlMsg = false := by decide
    have s8 : isSuspIssue tmplMsg = false := by decide
    unfold detectMaliciousContent
    rw [filter_catChunk_append s1, filter_catChunk_append s2, filter_catChunk_append s3,
        filter_catChunk_append s4, filter_catChunk_append s5, filter_catChunk_append s6,
        filter_catChunk_append s7, filter_catChunk_append s8, List.filter_append]
    have h2 : ((exec_patterns.filter (findsPattern (lowerData text))).map execMsg).filter
        isSuspIssue = [] := by
      rw [List.filter_eq_nil_iff]
      intro a ha
      obtain ⟨p, -, rfl⟩ := List.mem_map.mp ha
      simpa [isSuspIssue, List.isPrefixOf_iff_prefix] using not_suspMsgPre_starts_execMsg p
    have h1 : ((suspicious_patterns.filter (findsPattern (lowerData text))).map suspMsg).filter
        isSuspIssue = (suspicious_patterns.filter (findsPattern (lowerData text))).map suspMsg := by
      rw [List.filter_eq_self]
      intro a ha
      obtain ⟨q, -, rfl⟩ := List.mem_map.mp ha
      simpa [isSuspIssue, List.isPrefixOf_iff_prefix] using suspMsgPre_starts q
    rw [h1, h2, List.nil_append]

/-- Counterexample to claim C5 as stated: the single matched token
`"bind("` produces two code-execution entries (one per catalog copy),
not one. -/
theorem detectMalicious_bind_two_entries :
    (detectMaliciousContent "bind(").count (execMsg "bind(") = 2 := by
  decide
